import Mathlib

/-!
Verification development for the mylang front end (tokenizer, parser) and the
FTL emitter, shallowly embedded from the Rust sources:

  - src/src/token.rs            (TokenKind, Token)
  - src/src/emitter/ftl/mod.rs  (FtlEmitter)
  - src/main.rs                 (StdinReader)

The `ast`, `lexer`, `parser`, `source` (position container) modules are declared
in src/main.rs but their files are not part of the sources at hand; where a
property depends on them, the missing part is modelled from the specification
and marked `Modelled from the spec:` in its doc comment.

Conventions of the embedding:
  - Rust `String` is Lean `String`; `i64` payloads are `Int` (no claim touches
    64-bit overflow); the `f64` payload of a float literal is modelled as the
    exact rational value of the literal (`Rat`), since no claim depends on
    binary floating-point rounding.
  - `PositionContainer<T>` wrappers are elided in AST payloads: the emitter
    only ever reads `.inner` / derefs them, never the position.
  - Writing to the `io::Write` sink is modelled as producing a `String`;
    `write!` is string append and `writeln!` appends a final `"\n"`.
  - A `todo!()` panic and a match with no applicable arm produce no output;
    they are modelled as `Option.none`.
-/

namespace Mylang

/-- Positioned value, from the `source`/`position_container` module (used in
src/src/token.rs line 4 as `Token = PositionContainer<TokenKind>`).
Modelled from the spec: a generic wrapper pairing any value with the
(line, column) at which it began. -/
structure PositionContainer (α : Type) where
  inner : α
  line : Nat
  column : Nat
deriving Repr

/-- Token kinds, from src/src/token.rs lines 6-74. The constructor list is a
1:1 transcription of the Rust `enum TokenKind`; each surface form recorded in
the Rust doc comments is captured by `sourceForm` below. -/
inductive TokenKind where
  /-- Keyword: Function definition. -/
  | Def
  /-- Function, variable name or data type. -/
  | Identifier (name : String)
  /-- Floating point number. -/
  | Float (value : Rat)
  /-- Integer number. -/
  | Int (value : Int)
  /-- Comment (possibly a doc comment). -/
  | Comment (text : String)
  | Plus
  | Star
  | Minus
  | Less
  | Greater
  | OpeningParentheses
  | ClosingParentheses
  | OpeningCurlyBraces
  | ClosingCurlyBraces
  | OpeningSquareBrackets
  | ClosingSquareBrackets
  | Comma
  | Semicolon
  | Colon
  | Slash
  | Equal
  | NotEqual
  | BitOr
  | BitAnd
  | Modulus
  | If
  | Else
  | While
  | Dot
  | EndOfLine
  | Pointer
  | Struct
  | Var
deriving DecidableEq, Repr

/-- A token is a positioned token kind (src/src/token.rs line 4). -/
def Token : Type := PositionContainer TokenKind

/-- The source text of each token kind that has a fixed surface form, taken
from the doc comments in src/src/token.rs (`+`, `*`, ..., `=`, `=/=`, `\n`)
and, for the keywords whose doc comments are prose, from the keyword spellings
in the spec (`function`, `if`, `else`, `while`, `var`, `struct`, `ptr`).
The four payload-carrying kinds (identifier, int, float, comment) have no
fixed surface form and map to `none`. -/
def sourceForm : TokenKind → Option String
  | .Def => some "function"
  | .Identifier _ => none
  | .Float _ => none
  | .Int _ => none
  | .Comment _ => none
  | .Plus => some "+"
  | .Star => some "*"
  | .Minus => some "-"
  | .Less => some "<"
  | .Greater => some ">"
  | .OpeningParentheses => some "("
  | .ClosingParentheses => some ")"
  | .OpeningCurlyBraces => some "\x7b"
  | .ClosingCurlyBraces => some "\x7d"
  | .OpeningSquareBrackets => some "["
  | .ClosingSquareBrackets => some "]"
  | .Comma => some ","
  | .Semicolon => some ";"
  | .Colon => some ":"
  | .Slash => some "/"
  | .Equal => some "="
  | .NotEqual => some "=/="
  | .BitOr => some "|"
  | .BitAnd => some "&"
  | .Modulus => some "%"
  | .If => some "if"
  | .Else => some "else"
  | .While => some "while"
  | .Dot => some "."
  | .EndOfLine => some "\n"
  | .Pointer => some "ptr"
  | .Struct => some "struct"
  | .Var => some "var"

/-- The (kind, surface form) table of every token kind with a fixed surface
form: the 7 keywords, the 21 punctuation/operator symbols, and the end-of-line
marker — 29 kinds in all. -/
def kindForms : List (TokenKind × String) :=
  [(.Def, "function"), (.If, "if"), (.Else, "else"), (.While, "while"),
   (.Var, "var"), (.Struct, "struct"), (.Pointer, "ptr"),
   (.Plus, "+"), (.Minus, "-"), (.Star, "*"), (.Slash, "/"),
   (.Less, "<"), (.Greater, ">"), (.Equal, "="), (.NotEqual, "=/="),
   (.OpeningParentheses, "("), (.ClosingParentheses, ")"),
   (.OpeningCurlyBraces, "\x7b"), (.ClosingCurlyBraces, "\x7d"),
   (.OpeningSquareBrackets, "["), (.ClosingSquareBrackets, "]"),
   (.Comma, ","), (.Semicolon, ";"), (.Colon, ":"), (.Dot, "."),
   (.BitOr, "|"), (.BitAnd, "&"), (.Modulus, "%"),
   (.EndOfLine, "\n")]

/-- The keyword spellings. -/
def keywordForms : List String :=
  ["function", "if", "else", "while", "var", "struct", "ptr"]

/-- The 21 punctuation/operator surface forms that have a token kind of their
own in src/src/token.rs. -/
def punctuationForms : List String :=
  ["+", "-", "*", "/", "<", ">", "=", "=/=", "(", ")", "\x7b", "\x7d",
   "[", "]", ",", ";", ":", ".", "|", "&", "%"]

/-- Reserved words, mapped to their keyword token kinds. Modelled from the
spec: the tokenizer classifies a maximal alphanumeric run as a keyword when it
matches a fixed reserved-word set, else as an identifier. -/
def keywordKind : String → Option TokenKind
  | "function" => some .Def
  | "if" => some .If
  | "else" => some .Else
  | "while" => some .While
  | "var" => some .Var
  | "struct" => some .Struct
  | "ptr" => some .Pointer
  | _ => none

/-- Single-character punctuation/operator symbols and their token kinds
(`/` and `=` are handled separately because of comments, `=/=`). -/
def symbolKind : Char → Option TokenKind
  | '+' => some .Plus
  | '*' => some .Star
  | '-' => some .Minus
  | '<' => some .Less
  | '>' => some .Greater
  | '(' => some .OpeningParentheses
  | ')' => some .ClosingParentheses
  | '\x7b' => some .OpeningCurlyBraces
  | '\x7d' => some .ClosingCurlyBraces
  | '[' => some .OpeningSquareBrackets
  | ']' => some .ClosingSquareBrackets
  | ',' => some .Comma
  | ';' => some .Semicolon
  | ':' => some .Colon
  | '|' => some .BitOr
  | '&' => some .BitAnd
  | '%' => some .Modulus
  | '.' => some .Dot
  | _ => none

/-- Characters that may continue an identifier/keyword word. -/
def identRest (c : Char) : Bool := c.isAlphanum || c == '_'

/-- Numeric value of a digit run. -/
def digitsToNat (ds : List Char) : Nat :=
  ds.foldl (fun acc c => 10 * acc + (c.toNat - 48)) 0

/-- Modelled from the spec: the tokenizer (`lexer` module, not among the
sources). One recognition step per recursive call, fuel-bounded; each call
consumes at least one character so `fuel = input length` suffices. Per the
spec: non-newline whitespace is skipped; a newline is an explicit end-of-line
token; an alphabetic start accumulates a maximal alphanumeric/underscore run
and is a keyword or identifier; a digit run with an optional single decimal
point is an int or float (a second decimal point is a `LexError`, here
`none`); `//` begins a comment consuming the rest of the line; `=` followed by
`/=` is `NotEqual`, a lone `=` is `Equal`; remaining symbols map 1:1 via
`symbolKind`; any other character is a `LexError` (`none`). -/
def lexGo : Nat → List Char → Option (List TokenKind)
  | _, [] => some []
  | 0, _ :: _ => none
  | fuel + 1, c :: cs =>
    if c == '\n' then do
      pure (.EndOfLine :: (← lexGo fuel cs))
    else if c.isWhitespace then
      lexGo fuel cs
    else if c.isAlpha then
      let word := String.mk (c :: cs.takeWhile identRest)
      let rest := cs.dropWhile identRest
      let tok := (keywordKind word).getD (.Identifier word)
      do pure (tok :: (← lexGo fuel rest))
    else if c.isDigit then
      let intPart := c :: cs.takeWhile Char.isDigit
      let rest := cs.dropWhile Char.isDigit
      match rest with
      | '.' :: afterPoint =>
        let fracPart := afterPoint.takeWhile Char.isDigit
        let rest' := afterPoint.dropWhile Char.isDigit
        match rest' with
        | '.' :: _ => none
        | _ => do
          let value : Rat :=
            (digitsToNat intPart : Rat) +
              (digitsToNat fracPart : Rat) / ((10 : Rat) ^ fracPart.length)
          pure (.Float value :: (← lexGo fuel rest'))
      | _ => do pure (.Int (digitsToNat intPart) :: (← lexGo fuel rest))
    else if c == '/' then
      match cs with
      | '/' :: afterSlashes =>
        let text := afterSlashes.takeWhile (· != '\n')
        let rest := afterSlashes.dropWhile (· != '\n')
        do pure (.Comment (String.mk text) :: (← lexGo fuel rest))
      | _ => do pure (.Slash :: (← lexGo fuel cs))
    else if c == '=' then
      match cs with
      | '/' :: '=' :: rest => do pure (.NotEqual :: (← lexGo fuel rest))
      | _ => do pure (.Equal :: (← lexGo fuel cs))
    else
      match symbolKind c with
      | some k => do pure (k :: (← lexGo fuel cs))
      | none => none

/-- Tokenize a whole string (kinds only; positions are irrelevant to the
claims settled here). `none` models a `LexError`. -/
def tokenize (s : String) : Option (List TokenKind) :=
  lexGo s.length s.toList

example : tokenize "+" = some [.Plus] := by decide
example : tokenize "=/=" = some [.NotEqual] := by decide
example : tokenize "==" = some [.Equal, .Equal] := by decide
example : tokenize "function" = some [.Def] := by decide
example : tokenize "ptr" = some [.Pointer] := by decide

/-!
## The AST data model

Modelled from the spec: the `ast` module of the repository is not among the
sources (only src/main.rs declares it and src/src/emitter/ftl/mod.rs consumes
it). Variant names follow the paths used by the emitter
(`ast::expression::BinaryOperator`, `ast::statement::Statement`, ...); struct
wrappers (`BinaryExpression`, `IfElse`, `WhileLoop`, ...) are flattened into
constructor fields, and `Box`/`PositionContainer` indirections are elided.
-/

/-- Modelled from the spec: `BinaryOperator` is a closed enumeration of the
eight variants matched exhaustively (no wildcard arm) by
`FtlEmitter::binary_expression` (src/src/emitter/ftl/mod.rs lines 111-120). -/
inductive BinaryOperator where
  | Add
  | Subtract
  | Multiply
  | Divide
  | Less
  | Greater
  | Equal
  | NotEqual
deriving DecidableEq, Repr

/-- The eight binary operators, in declaration order. -/
def allBinaryOperators : List BinaryOperator :=
  [.Add, .Subtract, .Multiply, .Divide, .Less, .Greater, .Equal, .NotEqual]

/-- Modelled from the spec: a `Number` literal is an Int or Float value
(`ast::expression::Number`); the float value is the literal's exact rational
value. -/
inductive NumberLiteral where
  | Int (value : Int)
  | Float (value : Rat)
deriving Repr

/-- Modelled from the spec: `Expression` is polymorphic over
BinaryExpression(operator, lhs, rhs), FunctionCall(name, params),
Number(literal), Variable(name) — the four variants matched by
`FtlEmitter::expression` (src/src/emitter/ftl/mod.rs lines 95-104). -/
inductive Expression where
  | BinaryExpression (operator : BinaryOperator) (lhs rhs : Expression)
  | FunctionCall (name : String) (params : List Expression)
  | Number (value : NumberLiteral)
  | Variable (name : String)
deriving Repr

/-- Modelled from the spec: `Statement` is polymorphic over
VariableDeclaration(name, initializer expression),
VariableAssignment(name, new-value expression), and Return(expression). -/
inductive Statement where
  | VariableDeclaration (name : String) (value : Expression)
  | VariableAssignment (name : String) (value : Expression)
  | Return (value : Expression)
deriving Repr

/-- Modelled from the spec: `Instruction` is polymorphic over Expression,
Statement, IfElse and WhileLoop — the four variants matched by
`FtlEmitter::instruction` (src/src/emitter/ftl/mod.rs lines 86-93). The
`IfElse` and `WhileLoop` structs are flattened into constructor fields; an
absent `else` branch is the empty `if_false` sequence, not a distinct absent
state. -/
inductive Instruction where
  | Expression (expression : Expression)
  | Statement (statement : Statement)
  | IfElse (condition : Expression) (if_true : List Instruction)
      (if_false : List Instruction)
  | WhileLoop (condition : Expression) (body : List Instruction)
deriving Repr

/-- `ast::statement::BasicDataType` (consumed by
`FtlEmitter::basic_data_type`, src/src/emitter/ftl/mod.rs lines 70-75). -/
inductive BasicDataType where
  | Int
  | Float
deriving DecidableEq, Repr

/-- Modelled from the spec: a data type is Basic(int|float), a Struct name
reference, or a Pointer wrapping a nested data type to arbitrary depth — the
three variants matched by `FtlEmitter::data_type`
(src/src/emitter/ftl/mod.rs lines 62-68). -/
inductive DataType where
  | Basic (basic : BasicDataType)
  | Struct (name : String)
  | Pointer (pointee : DataType)
deriving DecidableEq, Repr

/-- `ast::statement::FunctionArgument`: argument name and data type
(consumed by `FtlEmitter::function_argument`). -/
structure FunctionArgument where
  name : String
  data_type : DataType
deriving DecidableEq, Repr

/-- Modelled from the spec: a function prototype is the name and the ordered
argument list (the emitter reads `function.prototype.name` and
`function.prototype.args`). -/
structure FunctionPrototype where
  name : String
  args : List FunctionArgument
deriving Repr

/-- Modelled from the spec: a function definition is its prototype and the
ordered instruction sequence of the body (the emitter reads
`function.prototype` and `function.body`). -/
structure FunctionDefinition where
  prototype : FunctionPrototype
  body : List Instruction
deriving Repr

/-- Modelled from the spec: a struct declaration is a name plus an ordered
sequence of (field name, data type) pairs. -/
structure StructDefinition where
  name : String
  fields : List (String × DataType)
deriving Repr

/-- Modelled from the spec: a top-level AST node is a Function or a Struct. -/
inductive AstNode where
  | Function (function : FunctionDefinition)
  | Struct (struct : StructDefinition)
deriving Repr

/-!
## The FTL emitter

Embedded from src/src/emitter/ftl/mod.rs. Writing to the `io::Write` sink is
modelled as building a `String` (`write!` appends, `writeln!` appends and adds
`"\n"`); the `String`-building writer never fails, so `io::Result` success is
implicit, and the only failure source left is a panic — `todo!()` in
`codegen_ast_node` and a match arm that does not exist — modelled as `none`.
-/

namespace FtlEmitter

/-- The operator table inside `FtlEmitter::binary_expression`
(src/src/emitter/ftl/mod.rs lines 111-120). -/
def operatorText : BinaryOperator → String
  | .Add => "+"
  | .Subtract => "-"
  | .Multiply => "*"
  | .Divide => "/"
  | .Less => "<"
  | .Greater => ">"
  | .Equal => "=="
  | .NotEqual => "=/="

/-- The token kind whose source symbol each binary operator denotes (token
kinds from src/src/token.rs; `Equal` is the `=` token, `NotEqual` the `=/=`
token). -/
def operatorTokenKind : BinaryOperator → TokenKind
  | .Add => .Plus
  | .Subtract => .Minus
  | .Multiply => .Star
  | .Divide => .Slash
  | .Less => .Less
  | .Greater => .Greater
  | .Equal => .Equal
  | .NotEqual => .NotEqual

/-- `FtlEmitter::number` (lines 135-138): writes the `Display` form of the
literal. -/
def numberText : NumberLiteral → String
  | .Int n => toString n
  | .Float q => toString q

mutual

/-- `FtlEmitter::expression` (lines 95-104), with the bodies of
`FtlEmitter::binary_expression` (lines 106-124), `FtlEmitter::function_call`
(lines 126-133) and `FtlEmitter::variable` (lines 140-143, which writes the
dereferenced name) inlined at their call sites. -/
def expression : Expression → String
  | .BinaryExpression operator lhs rhs =>
    expression lhs ++ " " ++ operatorText operator ++ " " ++ expression rhs
  | .FunctionCall name params => name ++ "(" ++ params_text params ++ ")"
  | .Number n => numberText n
  | .Variable name => name

/-- The `for param in function_call.params` loop of `FtlEmitter::function_call`
(lines 128-130): each argument expression is written with no separator. -/
def params_text : List Expression → String
  | [] => ""
  | p :: ps => expression p ++ params_text ps

end

/-- `FtlEmitter::binary_expression` (lines 106-124): lhs, space, operator,
space, rhs. -/
def binary_expression (operator : BinaryOperator) (lhs rhs : Expression) :
    String :=
  expression lhs ++ " " ++ operatorText operator ++ " " ++ expression rhs

/-- `FtlEmitter::function_call` (lines 126-133): name, `(`, the arguments with
no separator, `)`. -/
def function_call (name : String) (params : List Expression) : String :=
  name ++ "(" ++ params_text params ++ ")"

/-- `FtlEmitter::statement` (lines 145-154): the match has arms only for
`VariableDeclaration` (delegating to `FtlEmitter::variable_declaration`, lines
156-164, inlined) and `VariableAssignment` (delegating to
`FtlEmitter::assignment`, lines 166-171, inlined). The source match has no arm
for the spec's `Return` variant, so the embedding is `none` there. -/
def statement : Statement → Option String
  | .VariableDeclaration name value =>
    some ("var " ++ name ++ " = " ++ expression value ++ "\n")
  | .VariableAssignment name value =>
    some (name ++ " = " ++ expression value ++ "\n")
  | .Return _ => none

mutual

/-- `FtlEmitter::instruction` (lines 86-93), with the bodies of
`FtlEmitter::if_else` (lines 173-194) and `FtlEmitter::while_loop` (lines
196-205) inlined at their call sites (named wrappers below). -/
def instruction : Instruction → Option String
  | .Expression e => some (expression e)
  | .Statement s => statement s
  | .IfElse condition if_true if_false => do
    let t ← instructions if_true
    let head := "if (" ++ expression condition ++ ") \x7b\n" ++ t ++ "\x7d\n"
    if if_false.isEmpty then
      pure head
    else do
      let f ← instructions if_false
      pure (head ++ "else \x7b\n" ++ f ++ "\x7d\n")
  | .WhileLoop condition body => do
    let b ← instructions body
    pure ("while (" ++ expression condition ++ ") \x7b\n" ++ b ++ "\x7d\n")

/-- A `for instruction in ...` loop over an instruction sequence (function
body, if/else branch, while body): the instructions are emitted in order. -/
def instructions : List Instruction → Option String
  | [] => some ""
  | i :: is => do pure ((← instruction i) ++ (← instructions is))

end

/-- `FtlEmitter::if_else` (lines 173-194): the `if` block is always written;
then, if `if_false` is empty the method returns early, else it writes the
`else` block. -/
def if_else (condition : Expression) (if_true if_false : List Instruction) :
    Option String :=
  instruction (.IfElse condition if_true if_false)

/-- `FtlEmitter::while_loop` (lines 196-205). -/
def while_loop (condition : Expression) (body : List Instruction) :
    Option String :=
  instruction (.WhileLoop condition body)

/-- `FtlEmitter::basic_data_type` (lines 70-75). -/
def basic_data_type : BasicDataType → String
  | .Int => "int"
  | .Float => "float"

/-- `FtlEmitter::struct_name` (lines 77-79). -/
def struct_name (name : String) : String := name

/-- `FtlEmitter::data_type` (lines 62-68), with the body of
`FtlEmitter::pointer` (lines 81-84: write `ptr`, then the pointee type, with
nothing in between) inlined at its call site. -/
def data_type : DataType → String
  | .Basic b => basic_data_type b
  | .Struct name => struct_name name
  | .Pointer pointee => "ptr" ++ data_type pointee

/-- `FtlEmitter::pointer` (lines 81-84). -/
def pointer (pointee : DataType) : String := "ptr" ++ data_type pointee

/-- `FtlEmitter::function_argument` (lines 56-60): `name: type`. -/
def function_argument (arg : FunctionArgument) : String :=
  arg.name ++ ": " ++ data_type arg.data_type

/-- The `for arg in function.prototype.args` loop of `FtlEmitter::function`
(lines 41-44): every argument — the last one included — is followed by `", "`
(the source carries a `// TODO: Remove trailing comma`). -/
def function_arguments : List FunctionArgument → String
  | [] => ""
  | arg :: args => function_argument arg ++ ", " ++ function_arguments args

/-- `FtlEmitter::function` (lines 38-54): header `function name(args) {`,
then the body instructions, then a blank line and the closing `}`. -/
def function (f : FunctionDefinition) : Option String := do
  let body ← instructions f.body
  pure ("function " ++ f.prototype.name ++ "(" ++
    function_arguments f.prototype.args ++ ") \x7b\n" ++ body ++ "\n" ++
    "\x7d\n")

/-- `FtlEmitter::codegen_ast_node` (lines 31-36): only `Function` nodes are
handled; every other node hits `todo!()` (modelled as `none`). -/
def codegen_ast_node : AstNode → Option String
  | .Function f => function f
  | _ => none

/-- `FtlEmitter::codegen` (lines 20-29): emit every node in order; a panic
(`none`) in any node aborts the whole emission. -/
def codegen : List AstNode → Option String
  | [] => some ""
  | node :: nodes => do pure ((← codegen_ast_node node) ++ (← codegen nodes))

end FtlEmitter

/-!
## The stdin line reader

Embedded from src/main.rs lines 11-34. The operating-system stdin is modelled
as the list of input lines still available; `read_line` models Rust's
`stdin().read_line(&mut line)`, which fills the buffer with the next line, or
— once the input is exhausted — reads zero bytes (`Ok(0)`) and leaves the
buffer empty, so the read line is `""`.
-/

/-- `StdinReader` (src/main.rs lines 11-13): the only state is the prompt's
line counter. -/
structure StdinReader where
  line_nr : Nat
deriving Repr

/-- Modelled stdin: `read_line` pops the next available line, or returns the
empty string when the input is exhausted. -/
def read_line : List String → String × List String
  | [] => ("", [])
  | l :: ls => (l, ls)

/-- `StdinReader::next` (src/main.rs lines 26-33): print the prompt (no
observable value here), read a line, increment `line_nr`, and return
`Some(line)` — unconditionally. -/
def StdinReader.next (self : StdinReader) (stdin : List String) :
    Option String × StdinReader × List String :=
  let (line, rest) := read_line stdin
  (some line, ⟨self.line_nr + 1⟩, rest)

/-!
## The function-argument-list grammar

Modelled from the spec: the parser (`parser` module, not among the sources)
reads, after `(`, a comma-separated list of `identifier : dataType` pairs
until `)`.
-/

/-- Modelled from the spec: data type parsing — the `ptr` keyword wraps a
recursively parsed data type; the identifiers `int`/`float` denote the basic
types (src/src/token.rs has no dedicated keyword kinds for them); any other
bare identifier is a struct reference by name. -/
def parse_data_type : List TokenKind → Option (DataType × List TokenKind)
  | .Pointer :: rest => do
    let (inner, rest') ← parse_data_type rest
    pure (.Pointer inner, rest')
  | .Identifier "int" :: rest => some (.Basic .Int, rest)
  | .Identifier "float" :: rest => some (.Basic .Float, rest)
  | .Identifier name :: rest => some (.Struct name, rest)
  | _ => none

/-- Modelled from the spec: the function-argument-list loop — on `)` the list
ends; otherwise an `identifier : dataType` pair is read, and it may be
followed by a `,` (after which the loop continues, so a dangling comma right
before `)` is accepted) or directly by the closing `)`. Fuel-bounded, one
argument per unit of fuel. -/
def parse_function_args (fuel : Nat) (toks : List TokenKind) :
    Option (List FunctionArgument × List TokenKind) :=
  match fuel with
  | 0 => none
  | fuel + 1 =>
    match toks with
    | .ClosingParentheses :: rest => some ([], rest)
    | .Identifier name :: .Colon :: rest => do
      let (dt, rest') ← parse_data_type rest
      match rest' with
      | .Comma :: rest'' => do
        let (args, rest₃) ← parse_function_args fuel rest''
        pure (⟨name, dt⟩ :: args, rest₃)
      | .ClosingParentheses :: rest'' => pure ([⟨name, dt⟩], rest'')
      | _ => none
    | _ => none

example :
    parse_function_args 3
      [.Identifier "a", .Colon, .Identifier "int", .Comma,
       .Identifier "b", .Colon, .Identifier "int", .ClosingParentheses] =
      some ([⟨"a", .Basic .Int⟩, ⟨"b", .Basic .Int⟩], []) := by decide

/-!
## Helper lemmas
-/

/-- Every kind with a fixed source form appears, with that form, in the
`kindForms` table. -/
theorem sourceForm_mem_kindForms (k : TokenKind) (s : String)
    (h : sourceForm k = some s) : (k, s) ∈ kindForms := by
  cases k <;> simp_all [sourceForm, kindForms]

/-- Joining a non-empty list of strings prepends the head to the join of the
tail. -/
theorem string_join_cons (s : String) (l : List String) :
    String.join (s :: l) = s ++ String.join l := by
  apply String.ext
  simp

/-- The emitter's function-call argument loop concatenates the renderings of
the argument expressions with nothing between them. -/
theorem params_text_eq_join (params : List Expression) :
    FtlEmitter.params_text params =
      String.join (params.map FtlEmitter.expression) := by
  induction params with
  | nil => rfl
  | cons p ps ih => simp [FtlEmitter.params_text, ih, string_join_cons]

/-- Appending a final argument to the emitter's argument-list loop appends its
rendering and one more `", "` separator. -/
theorem function_arguments_concat (args : List FunctionArgument)
    (a : FunctionArgument) :
    FtlEmitter.function_arguments (args ++ [a]) =
      FtlEmitter.function_arguments args ++
        (FtlEmitter.function_argument a ++ ", ") := by
  induction args with
  | nil => simp [FtlEmitter.function_arguments, String.empty_append,
      String.append_empty]
  | cons x xs ih => simp [FtlEmitter.function_arguments, ih,
      String.append_assoc]

/-!
## The claims
-/

/-- C1, counterexample: the emitter's dispatch over `Statement`
(`FtlEmitter::statement`, src/src/emitter/ftl/mod.rs lines 145-154) does not
handle a `Return` statement: its match has no `Return` arm, so it produces no
output for one. -/
theorem statement_return_counterexample :
    FtlEmitter.statement (Statement.Return (Expression.Variable "x")) =
      none := rfl

/-- C1, amended: `Statement` has the three variants of the spec's data model,
but the emitter's dispatch over `Statement` handles exactly
`VariableDeclaration` and `VariableAssignment`: it is undefined (no match arm,
hence no output) precisely on the `Return` variant. -/
theorem statement_dispatch_lacks_return :
    ∀ s : Statement,
      FtlEmitter.statement s = none ↔ ∃ e, s = Statement.Return e := by
  intro s
  cases s <;> simp [FtlEmitter.statement]

/-- C2, counterexample: no token kind has the source form `==` — the claimed
distinct kind for the symbol `==` does not exist in src/src/token.rs (`=` is
the single `Equal` kind, and `==` lexes as two of them). -/
theorem no_double_equal_token_kind :
    ¬ ∃ k : TokenKind, sourceForm k = some "==" := by
  rintro ⟨k, hk⟩
  cases k <;> simp_all [sourceForm]

/-- C2, amended: the token kinds are exactly: the 7 keywords, identifier,
integer literal, float literal, comment, one kind per symbol in
`+ - * / < > = =/= ( ) { } [ ] , ; : . | & %` (21 symbols — there is no
separate `==` kind; `=` is the single `Equal` kind), and the end-of-line
marker. The `kindForms` table pairs each of the 29 fixed-form kinds with its
distinct surface form; every kind outside the table is one of the four
payload-carrying kinds. -/
theorem token_kind_inventory :
    (∀ (k : TokenKind) (s : String), sourceForm k = some s →
      (k, s) ∈ kindForms) ∧
    (∀ p ∈ kindForms, sourceForm p.1 = some p.2) ∧
    (kindForms.map Prod.snd).Nodup ∧
    kindForms.map Prod.snd = keywordForms ++ punctuationForms ++ ["\n"] ∧
    "==" ∉ kindForms.map Prod.snd ∧
    (∀ k : TokenKind, sourceForm k = none →
      (∃ s, k = TokenKind.Identifier s) ∨ (∃ v, k = TokenKind.Int v) ∨
      (∃ v, k = TokenKind.Float v) ∨ (∃ s, k = TokenKind.Comment s)) := by
  refine ⟨sourceForm_mem_kindForms, by decide, by decide, by decide,
    by decide, ?_⟩
  intro k h
  cases k <;> simp_all [sourceForm]

/-- C2, witness: `=` is the source form of the `Equal` kind, and the pair is
in the table. -/
theorem token_kind_inventory_witness :
    (TokenKind.Equal, "=") ∈ kindForms ∧
    sourceForm TokenKind.Equal = some "=" :=
  ⟨token_kind_inventory.1 TokenKind.Equal "=" rfl,
   token_kind_inventory.2.1 (TokenKind.Equal, "=") (by decide)⟩

/-- C3, counterexample: the surface form the emitter renders for
`BinaryOperator::Equal` (`==`, src/src/emitter/ftl/mod.rs line 118) does not
re-lex to the `Equal` operator token: the round trip fails for `Equal`. -/
theorem equal_render_roundtrip_fails :
    tokenize (FtlEmitter.operatorText BinaryOperator.Equal) ≠
      some [TokenKind.Equal] := by decide

/-- C3, amended: re-rendering any punctuation or keyword token to its source
form and tokenizing yields the same token back, and the emitter's rendering of
each binary operator other than `Equal` re-lexes to the corresponding single
operator token; `Equal` however is rendered `==`, which re-lexes to two
`Equal` (`=`) tokens. -/
theorem token_roundtrip_amended :
    (∀ (k : TokenKind) (s : String), sourceForm k = some s →
      tokenize s = some [k]) ∧
    (∀ op : BinaryOperator, op ≠ BinaryOperator.Equal →
      tokenize (FtlEmitter.operatorText op) =
        some [FtlEmitter.operatorTokenKind op]) ∧
    tokenize (FtlEmitter.operatorText BinaryOperator.Equal) =
      some [TokenKind.Equal, TokenKind.Equal] := by
  refine ⟨?_, ?_, by decide⟩
  · intro k s h
    have hall : ∀ p ∈ kindForms, tokenize p.2 = some [p.1] := by decide
    exact hall (k, s) (sourceForm_mem_kindForms k s h)
  · intro op h
    cases op <;> first | decide | exact absurd rfl h

/-- C3, witness: the `+` round trip, both from the token table and from the
emitter's rendering of `Add`. -/
theorem token_roundtrip_amended_witness :
    tokenize "+" = some [TokenKind.Plus] ∧
    tokenize (FtlEmitter.operatorText BinaryOperator.Add) =
      some [FtlEmitter.operatorTokenKind BinaryOperator.Add] :=
  ⟨token_roundtrip_amended.1 TokenKind.Plus "+" rfl,
   token_roundtrip_amended.2.1 BinaryOperator.Add (by decide)⟩

/-- C4: `BinaryOperator` is a closed enumeration of exactly the eight variants
Add, Subtract, Multiply, Divide, Less, Greater, Equal, NotEqual, and the
emitter's operator rendering covers precisely these eight cases. -/
theorem binary_operator_closed_enumeration :
    (∀ op : BinaryOperator, op ∈ allBinaryOperators) ∧
    allBinaryOperators.Nodup ∧
    allBinaryOperators.length = 8 ∧
    allBinaryOperators.map FtlEmitter.operatorText =
      ["+", "-", "*", "/", "<", ">", "==", "=/="] :=
  ⟨fun op => by cases op <;> decide, by decide, by decide, by decide⟩

/-- C5: the absence of an else branch is the empty `if_false` sequence, and
`FtlEmitter::if_else` emits an `else { ... }` block if and only if that
sequence is non-empty, emitting its instructions verbatim in order (their
concatenated rendering `f`). -/
theorem if_else_block_iff_nonempty :
    ∀ (condition : Expression) (if_true if_false : List Instruction)
      (t f : String),
      FtlEmitter.instructions if_true = some t →
      FtlEmitter.instructions if_false = some f →
      ((if_false = [] →
        FtlEmitter.if_else condition if_true if_false =
          some ("if (" ++ FtlEmitter.expression condition ++ ") \x7b\n" ++
            t ++ "\x7d\n")) ∧
       (if_false ≠ [] →
        FtlEmitter.if_else condition if_true if_false =
          some ("if (" ++ FtlEmitter.expression condition ++ ") \x7b\n" ++
            t ++ "\x7d\n" ++ "else \x7b\n" ++ f ++ "\x7d\n"))) := by
  intro condition if_true if_false t f ht hf
  constructor
  · intro h
    subst h
    simp [FtlEmitter.if_else, FtlEmitter.instruction, ht]
  · intro h
    cases if_false with
    | nil => exact absurd rfl h
    | cons x xs =>
      simp [FtlEmitter.if_else, FtlEmitter.instruction, ht, hf]

/-- C5, witness: a concrete `if` with a one-instruction else branch gets the
`else` block; hypotheses discharged at `t = "a"`, `f = "b"`. -/
theorem if_else_block_iff_nonempty_witness :
    FtlEmitter.if_else (Expression.Variable "c")
      [Instruction.Expression (Expression.Variable "a")]
      [Instruction.Expression (Expression.Variable "b")] =
      some ("if (" ++ "c" ++ ") \x7b\n" ++ "a" ++ "\x7d\n" ++
        "else \x7b\n" ++ "b" ++ "\x7d\n") :=
  (if_else_block_iff_nonempty (Expression.Variable "c")
    [Instruction.Expression (Expression.Variable "a")]
    [Instruction.Expression (Expression.Variable "b")] "a" "b" rfl rfl).2
    (by simp)

/-- C6: for a function with at least one argument (argument list
`args ++ [a]`), the emitter writes every argument as `name: type` followed by
`", "` — the final argument included, leaving a dangling comma right before
`)` — and the (spec-modelled) argument-list grammar accepts a trailing comma
before `)`. -/
theorem function_trailing_comma :
    (∀ (name : String) (args : List FunctionArgument) (a : FunctionArgument)
      (body : List Instruction) (b : String),
      FtlEmitter.instructions body = some b →
      FtlEmitter.function ⟨⟨name, args ++ [a]⟩, body⟩ =
        some ("function " ++ name ++ "(" ++
          FtlEmitter.function_arguments args ++
          FtlEmitter.function_argument a ++ ", " ++ ") \x7b\n" ++ b ++
          "\n" ++ "\x7d\n")) ∧
    parse_function_args 2
      [TokenKind.Identifier "a", TokenKind.Colon, TokenKind.Identifier "int",
       TokenKind.Comma, TokenKind.ClosingParentheses] =
      some ([⟨"a", DataType.Basic BasicDataType.Int⟩], []) := by
  refine ⟨?_, by decide⟩
  intro name args a body b hb
  simp [FtlEmitter.function, hb, function_arguments_concat,
    String.append_assoc]

/-- C6, witness: a one-argument function emitted with the dangling comma, and
the trailing-comma parse; the body hypothesis discharged at `b = ""`. -/
theorem function_trailing_comma_witness :
    FtlEmitter.function
      ⟨⟨"f", [] ++ [⟨"a", DataType.Basic BasicDataType.Int⟩]⟩, []⟩ =
      some ("function " ++ "f" ++ "(" ++
        FtlEmitter.function_arguments [] ++
        FtlEmitter.function_argument ⟨"a", DataType.Basic BasicDataType.Int⟩ ++
        ", " ++ ") \x7b\n" ++ "" ++ "\n" ++ "\x7d\n") :=
  function_trailing_comma.1 "f" [] ⟨"a", DataType.Basic BasicDataType.Int⟩
    [] "" rfl

/-- C7, counterexample: with the underlying input exhausted, `StdinReader::next`
(src/main.rs lines 26-33) still returns `Some` — of the empty line that
`read_line` leaves at end of input — not the end-of-sequence value `None`. -/
theorem stdin_reader_no_end_signal :
    (StdinReader.next ⟨1⟩ []).1 ≠ none ∧
    (StdinReader.next ⟨1⟩ []).1 = some "" :=
  ⟨by decide, rfl⟩

/-- C7, amended: `StdinReader::next` unconditionally returns `Some` of the
line `read_line` produced, incrementing the line counter; in particular, on
exhausted input it returns `Some ""` forever rather than `None` — the iterator
never signals end-of-sequence. -/
theorem stdin_reader_always_some :
    ∀ (r : StdinReader) (stdin : List String),
      (StdinReader.next r stdin).1 = some (read_line stdin).1 ∧
      ((StdinReader.next r stdin).2.1).line_nr = r.line_nr + 1 ∧
      (StdinReader.next r []).1 = some "" := by
  intro r stdin
  cases stdin <;> exact ⟨rfl, rfl, rfl⟩

/-- C8: `FtlEmitter::codegen_ast_node` is defined only for `Function` nodes —
every non-`Function` node (in particular every `Struct`) hits `todo!()` and
produces no output, so emitting any node sequence containing a `Struct`
aborts. -/
theorem codegen_struct_aborts :
    (∀ node : AstNode, (∀ f, node ≠ AstNode.Function f) →
      FtlEmitter.codegen_ast_node node = none) ∧
    (∀ sd : StructDefinition,
      FtlEmitter.codegen_ast_node (AstNode.Struct sd) = none) ∧
    (∀ nodes : List AstNode, (∃ sd, AstNode.Struct sd ∈ nodes) →
      FtlEmitter.codegen nodes = none) := by
  refine ⟨?_, fun sd => rfl, ?_⟩
  · intro node h
    cases node with
    | Function f => exact absurd rfl (h f)
    | Struct sd => rfl
  · intro nodes h
    obtain ⟨sd, hmem⟩ := h
    revert hmem
    induction nodes with
    | nil =>
      intro hmem
      cases hmem
    | cons n ns ih =>
      intro hmem
      rcases List.mem_cons.mp hmem with h1 | h1
      · subst h1
        simp [FtlEmitter.codegen, FtlEmitter.codegen_ast_node]
      · have hns := ih h1
        cases hcn : FtlEmitter.codegen_ast_node n <;>
          simp [FtlEmitter.codegen, hcn, hns]

/-- C8, witness: a concrete `Struct` node produces no output, and a sequence
containing it aborts. -/
theorem codegen_struct_aborts_witness :
    FtlEmitter.codegen_ast_node (AstNode.Struct ⟨"Point", []⟩) = none ∧
    FtlEmitter.codegen [AstNode.Struct ⟨"Point", []⟩] = none :=
  ⟨codegen_struct_aborts.1 (AstNode.Struct ⟨"Point", []⟩)
      (fun _ h => AstNode.noConfusion h),
   codegen_struct_aborts.2.2 [AstNode.Struct ⟨"Point", []⟩]
      ⟨⟨"Point", []⟩, List.mem_cons_self _ _⟩⟩

/-- C9: for every FunctionCall node — any name and any argument list —
`FtlEmitter::function_call` writes the name, `(`, the renderings of the
argument expressions concatenated directly with no separator between
consecutive arguments (their `String.join`), then `)`; the expression
dispatch emits the same text, and in particular a two-argument call carries no
comma between the arguments. -/
theorem function_call_no_separator :
    ∀ (name : String) (params : List Expression) (p q : Expression),
      FtlEmitter.function_call name params =
        name ++ "(" ++ String.join (params.map FtlEmitter.expression) ++
          ")" ∧
      FtlEmitter.expression (Expression.FunctionCall name params) =
        FtlEmitter.function_call name params ∧
      FtlEmitter.expression (Expression.FunctionCall name [p, q]) =
        name ++ "(" ++ FtlEmitter.expression p ++ FtlEmitter.expression q ++
          ")" := by
  intro name params p q
  refine ⟨?_, ?_, ?_⟩
  · rw [FtlEmitter.function_call, params_text_eq_join]
  · simp [FtlEmitter.expression, FtlEmitter.function_call]
  · simp [FtlEmitter.expression, FtlEmitter.function_call,
      FtlEmitter.params_text, String.append_empty, String.append_assoc]

/-- The n-fold pointer chain `Pointer(Pointer(...(t)))`. -/
def ptrChain : Nat → DataType → DataType
  | 0, t => t
  | n + 1, t => .Pointer (ptrChain n t)

/-- The text `ptr` repeated n times with nothing in between. -/
def ptrText : Nat → String
  | 0 => ""
  | n + 1 => "ptr" ++ ptrText n

/-- C10: a pointer chain of depth n is emitted as the text `ptr` exactly n
times immediately followed by the inner type's rendering, with no whitespace;
in particular `Pointer(Basic(Int))` is emitted as the contiguous `ptrint`. -/
theorem pointer_chain_contiguous :
    (∀ (n : Nat) (t : DataType),
      FtlEmitter.data_type (ptrChain n t) =
        ptrText n ++ FtlEmitter.data_type t) ∧
    FtlEmitter.data_type (DataType.Pointer (DataType.Basic BasicDataType.Int)) =
      "ptrint" ∧
    FtlEmitter.pointer (DataType.Basic BasicDataType.Int) = "ptrint" := by
  refine ⟨?_, by decide, by decide⟩
  intro n t
  induction n with
  | zero => simp [ptrChain, ptrText, String.empty_append]
  | succ n ih =>
    simp [ptrChain, ptrText, FtlEmitter.data_type, ih, String.append_assoc]

end Mylang
